import Mathlib

/-! Shallow embedding of the axis_email_version document-verification
repository: the data model from models.py, the purpose-to-requirements
table from document_requirements.py, the vision tool wrapper from
verification_tools.py, the chat submit handler from app.py, and the
entry point of example_usage.py. -/

/-- Document types from models.py (class DocumentType, a str Enum). -/
inductive DocumentType where
  | AADHAAR
  | PAN
  | PASSPORT
  | VOTER_ID
  | DRIVING_LICENSE
  | UTILITY_BILL
  | BANK_STATEMENT
  | SALARY_SLIP
  | FORM_16
  | ITR
  | PHOTOGRAPH
  | SIGNATURE
  | CHEQUE_LEAF
  | GST_CERTIFICATE
  | INCORPORATION_CERTIFICATE
  | OTHER
  deriving DecidableEq, Repr

/-- String value of each DocumentType, as declared in the str Enum. -/
def DocumentType.val : DocumentType → String
  | .AADHAAR => "Aadhaar"
  | .PAN => "PAN"
  | .PASSPORT => "Passport"
  | .VOTER_ID => "VoterID"
  | .DRIVING_LICENSE => "DrivingLicense"
  | .UTILITY_BILL => "Utility"
  | .BANK_STATEMENT => "BankStatement"
  | .SALARY_SLIP => "SalarySlip"
  | .FORM_16 => "Form16"
  | .ITR => "ITR"
  | .PHOTOGRAPH => "Photograph"
  | .SIGNATURE => "Signature"
  | .CHEQUE_LEAF => "ChequeLeaf"
  | .GST_CERTIFICATE => "GSTCertificate"
  | .INCORPORATION_CERTIFICATE => "IncorporationCertificate"
  | .OTHER => "Other"

/-- Consistency status from models.py (class ConsistencyStatus, a str Enum). -/
inductive ConsistencyStatus where
  | MATCH
  | PARTIAL
  | MISMATCH
  deriving DecidableEq, Repr

/-- String value of each ConsistencyStatus, as declared in the str Enum. -/
def ConsistencyStatus.val : ConsistencyStatus → String
  | .MATCH => "MATCH"
  | .PARTIAL => "PARTIAL"
  | .MISMATCH => "MISMATCH"

/-- Verification decision from models.py (class Decision, a str Enum). -/
inductive Decision where
  | APPROVED
  | REVIEW_REQUIRED
  | REJECTED
  deriving DecidableEq, Repr

/-- String value of each Decision, as declared in the str Enum. -/
def Decision.val : Decision → String
  | .APPROVED => "APPROVED"
  | .REVIEW_REQUIRED => "REVIEW_REQUIRED"
  | .REJECTED => "REJECTED"

/-- RequiredDocument from models.py: a document type name and whether it
is mandatory. The pydantic model has exactly these two fields; there is
no alternatives list. -/
structure RequiredDocument where
  type : String
  required : Bool
  deriving DecidableEq, Repr

/-- ExtractedFields from models.py: all fields optional. The source
declares salary as an optional float; it is modelled here as an optional
integer-valued number, no claim depends on its numeric type. -/
structure ExtractedFields where
  name : Option String
  dob : Option String
  document_number_masked : Option String
  address : Option String
  father_name : Option String
  nationality : Option String
  expiry_date : Option String
  employer_name : Option String
  salary : Option Int
  financial_year : Option String
  bill_date : Option String
  deriving DecidableEq, Repr

/-- DocumentUpload from models.py. -/
structure DocumentUpload where
  upload_id : String
  filename : String
  detected_type : String
  extracted_fields : ExtractedFields
  ocr_text_snippet : String
  confidence : Nat
  tamper_flag : Bool
  notes : List String
  deriving DecidableEq, Repr

/-- CrossChecks from models.py. -/
structure CrossChecks where
  name_consistency : ConsistencyStatus
  dob_consistency : ConsistencyStatus
  face_match_score : Option Nat
  deriving DecidableEq, Repr

/-- Audit from models.py. -/
structure Audit where
  agent_version : String
  logs : List String
  consent_received : Bool
  deriving DecidableEq, Repr

/-- VerificationResult from models.py: the full structured output model.
Field order matches the pydantic declaration order. -/
structure VerificationResult where
  request_id : String
  timestamp : String
  purpose : String
  required_documents : List RequiredDocument
  uploads : List DocumentUpload
  cross_checks : CrossChecks
  decision : Decision
  decision_reasons : List String
  next_actions : List String
  audit : Audit
  escalate_to_human : Bool
  human_escalation_reason : Option String

/-- DOCUMENT_REQUIREMENTS from document_requirements.py: purpose key to
an ordered list of (document type, required flag) pairs, in source order.
Python dicts preserve insertion order, so an association list is a
faithful model. -/
def DOCUMENT_REQUIREMENTS : List (String × List (String × Bool)) :=
  [("account_opening_savings",
    [("PAN", true), ("Aadhaar", true), ("Photograph", true),
     ("Utility", false), ("BankStatement", false)]),
   ("account_opening_salary",
    [("PAN", true), ("Aadhaar", true), ("Photograph", true),
     ("SalarySlip", true), ("Utility", false), ("BankStatement", false)]),
   ("address_update",
    [("Aadhaar", false), ("PAN", false), ("Utility", false),
     ("BankStatement", false)]),
   ("loan_application",
    [("PAN", true), ("Aadhaar", true), ("SalarySlip", false),
     ("Form16", false), ("ITR", false)]),
   ("credit_card_kyc",
    [("PAN", true), ("Aadhaar", true), ("SalarySlip", false),
     ("Form16", false)]),
   ("business_account",
    [("PAN", true), ("GSTCertificate", true),
     ("IncorporationCertificate", true), ("Aadhaar", true)])]

/-- The purpose keys of DOCUMENT_REQUIREMENTS, in table order. -/
def KNOWN_PURPOSES : List String := DOCUMENT_REQUIREMENTS.map Prod.fst

/-- get_required_documents from document_requirements.py: table lookup
with a two-slot PAN and Aadhaar fallback for unknown purposes. The
source checks membership in the dict and builds RequiredDocument values
from the stored pairs. -/
def get_required_documents (purpose : String) : List RequiredDocument :=
  match DOCUMENT_REQUIREMENTS.lookup purpose with
  | none =>
    [{ type := "PAN", required := true },
     { type := "Aadhaar", required := true }]
  | some reqs =>
    reqs.map fun dr => { type := dr.1, required := dr.2 }

/-- Python single-character str.replace, used by get_purpose_display_name
as purpose.replace under score to space: every occurrence of the old
character is replaced. -/
def pyReplaceChar (s : String) (old new : Char) : String :=
  String.mk (s.data.map fun c => if c = old then new else c)

/-- Python str.title(): a cased character that does not follow a cased
character is uppercased, every other cased character is lowercased; for
the ASCII strings this code handles, cased coincides with alphabetic. -/
def pyTitle (s : String) : String :=
  String.mk ((s.data.foldl
    (fun (acc : List Char × Bool) c =>
      let cased := c.isAlpha
      let c2 := if cased then (if acc.2 then c.toLower else c.toUpper) else c
      (acc.1 ++ [c2], cased))
    ([], false)).1)

/-- The fixed display-name mapping inside get_purpose_display_name. -/
def PURPOSE_DISPLAY_MAPPING : List (String × String) :=
  [("account_opening_savings", "Open Savings Account"),
   ("account_opening_salary", "Open Salary Account"),
   ("address_update", "Update Address"),
   ("loan_application", "Loan Application"),
   ("credit_card_kyc", "Credit Card KYC"),
   ("business_account", "Open Business Account")]

/-- get_purpose_display_name from document_requirements.py:
mapping.get(purpose, purpose.replace("_", " ").title()). -/
def get_purpose_display_name (purpose : String) : String :=
  (PURPOSE_DISPLAY_MAPPING.lookup purpose).getD
    (pyTitle (pyReplaceChar purpose '_' ' '))

/-- Whether pat occurs as a contiguous sublist of the second list. -/
def hasSublist (pat : List Char) : List Char → Bool
  | [] => pat.isEmpty
  | c :: tl => pat.isPrefixOf (c :: tl) || hasSublist pat tl

/-- Python pathlib suffix of the final path component: the substring from
the last dot, provided that dot is neither the first nor the last
character of the name; otherwise the empty string. -/
def pathSuffix (p : String) : String :=
  let name := (p.splitOn "/").getLastD ""
  let cs := name.data
  match cs.reverse.findIdx? (fun c => c = '.') with
  | none => ""
  | some j =>
    let i := cs.length - 1 - j
    if 0 < i && i < cs.length - 1 then String.mk (cs.drop i) else ""

/-- The extension-to-MIME table inside get_image_mime_type from
verification_tools.py. -/
def MIME_TYPES : List (String × String) :=
  [(".jpg", "image/jpeg"), (".jpeg", "image/jpeg"), (".png", "image/png"),
   (".gif", "image/gif"), (".webp", "image/webp")]

/-- get_image_mime_type from verification_tools.py: look up the
lowercased extension, defaulting to image/jpeg. -/
def get_image_mime_type (file_path : String) : String :=
  ((MIME_TYPES.lookup (pathSuffix file_path).toLower).getD "image/jpeg")

/-- Prompt built by analyze_document_image when a question is supplied. -/
def question_prompt (question : String) : String :=
  "Analyze this document image and answer: " ++ question ++ "

Provide a comprehensive analysis including:
- Document type identification
- All extracted information (names, dates, document numbers, addresses, etc.)
- Validity checks
- Any issues or concerns
- Verification decision (APPROVED/REVIEW_REQUIRED/REJECTED)
- Confidence level
- Next steps if needed

IMPORTANT: Always mask sensitive information:
- Aadhaar numbers: Show as \"xxxx-xxxx-1234\" (last 4 digits only)
- PAN numbers: Show as \"AB***1234C\" (first 2, last 1, mask middle)
- Passport numbers: Show as \"A****567\" (first letter, last 3, mask middle)
- Account numbers: Show only last 4 digits

Be thorough and professional in your analysis."

/-- Default prompt built by analyze_document_image when no question is
supplied. -/
def default_prompt : String :=
  "Analyze this document image comprehensively.

Provide a detailed analysis including:

1. **Document Type**: Identify what type of document this is (Aadhaar, PAN, Passport, Utility Bill, Salary Slip, etc.)

2. **Extracted Information**: Extract all relevant fields:
   - For identity documents: Name, DOB, Document number, Address (if applicable)
   - For PAN: Name, PAN number, DOB, Father\x27s name (if visible)
   - For Aadhaar: Name, Aadhaar number, DOB, Address
   - For Passport: Name, Passport number, DOB, Nationality, Expiry date
   - For Utility bills: Customer name, Address, Bill date
   - For Salary slips: Employer name, Employee name, Salary amount, Period

3. **Validity Checks**:
   - Format validation (e.g., PAN format: ABCDE1234F)
   - Date validity
   - Document authenticity indicators

4. **Quality Assessment**:
   - Image clarity
   - Text readability
   - Document completeness

5. **Tamper Detection**:
   - Signs of editing or manipulation
   - Inconsistent fonts or alignment
   - Suspicious artifacts

6. **Verification Decision**: 
   - APPROVED: Document is valid and authentic
   - REVIEW_REQUIRED: Minor issues or needs clarification
   - REJECTED: Major issues, tampering, or invalid format

7. **Confidence Level**: High/Medium/Low

8. **Issues Found**: List any problems or concerns

9. **Next Steps**: What should be done next

IMPORTANT SECURITY RULES:
- ALWAYS mask sensitive numbers:
  - Aadhaar: \"xxxx-xxxx-1234\" (show only last 4 digits)
  - PAN: \"AB***1234C\" (first 2 letters, last letter, mask middle)
  - Passport: \"A****567\" (first letter, last 3 digits, mask middle)
  - Account numbers: Show only last 4 digits
- Never display full sensitive identifiers in plain text
- Be professional and clear in your response"

/-- analyze_document_image from verification_tools.py. The two effectful
steps are abstracted as oracles: file_read stands for opening and
base64-encoding the image (encode_image_to_base64), api_call for the
OpenAI chat-completions call, taking the prompt and the data URL and
returning the response content. Every failure raised inside the body is
caught by the except clause, which returns the fixed error string. -/
def analyze_document_image (file_read : Except String String)
    (api_call : String → String → Except String String)
    (file_path : String) (filename : Option String)
    (question : Option String) : String :=
  let body : Except String String := do
    let mime_type := get_image_mime_type file_path
    let base64_image ← file_read
    let prompt := match question with
      | some q => question_prompt q
      | none => default_prompt
    let result ← api_call prompt ("data:" ++ mime_type ++ ";base64," ++ base64_image)
    match filename with
    | some f => pure ("Analysis of " ++ f ++ ":\n\n" ++ result)
    | none => pure result
  match body with
  | .ok s => s
  | .error e =>
    "Error analyzing document: " ++ e ++
      ". Please ensure the file path is correct and the image is accessible."

/-- A chat message of app.py: a role and a content string. -/
structure ChatMessage where
  role : String
  content : String
  deriving DecidableEq, Repr

/-- The [NEW UPLOADS] instruction block from the submit handler in
app.py, added when pending_upload_ack is set. -/
def NEW_UPLOADS_INSTRUCTIONS : String :=
  "\n\n[NEW UPLOADS]\nPlease confirm you have received and reviewed the newly attached files listed below before addressing the customer\x27s request.\n"

/-- The closing sentence appended to file_info in the submit handler. -/
def FILE_INFO_FOOTER : String :=
  "You can use the analyze_document_image tool with these file paths to verify documents."

/-- Python str.strip() with no argument: remove leading and trailing
whitespace. Used for the truthiness test prompt.strip() guarding the
submit handler. -/
def pyStrip (s : String) : String :=
  String.mk
    (((s.data.dropWhile Char.isWhitespace).reverse.dropWhile
        Char.isWhitespace).reverse)

/-- The per-file listing built by the submit handler: each uploaded file
is (filename, saved path, whether the path still exists). -/
def build_file_info (files : List (String × String × Bool)) : String :=
  "\n\n[UPLOADED FILES AVAILABLE FOR ANALYSIS]\n" ++
    String.join (files.map fun f =>
      if f.2.2 then "File: " ++ f.1 ++ "\nPath: " ++ f.2.1 ++ "\n\n"
      else "File: " ++ f.1 ++ " (path not found: " ++ f.2.1 ++ ")\n\n")

/-- The module-level submit handler of app.py (lines 110-151): when a
non-blank message is submitted, append the user message, build the
agent input (attaching upload info and the pending-ack instructions),
run the agent, and append either its response content or, when the run
raises, the fixed error message. agent_run abstracts
st.session_state.agent.run, returning the response content or the
exception text. -/
def submit_handler (submitted : Bool) (messages : List ChatMessage)
    (prompt : String) (uploaded_files : List (String × String × Bool))
    (pending_ack : Bool) (agent_run : String → Except String String) :
    List ChatMessage :=
  if submitted && (pyStrip prompt != "") then
    let withUser := messages ++ [{ role := "user", content := prompt }]
    let user_message :=
      if uploaded_files.isEmpty then prompt
      else
        let instructions := if pending_ack then NEW_UPLOADS_INSTRUCTIONS else ""
        prompt ++ instructions ++ build_file_info uploaded_files ++ FILE_INFO_FOOTER
    match agent_run user_message with
    | .ok content => withUser ++ [{ role := "assistant", content := content }]
    | .error e =>
      withUser ++
        [{ role := "assistant", content := "Sorry, I encountered an error: " ++ e }]
  else messages

/-- A JSON value, the target of serializing a VerificationResult the way
pydantic model_dump renders it (Config use_enum_values makes every enum
field carry its string value). -/
inductive Json where
  | null
  | bool (b : Bool)
  | num (n : Int)
  | str (s : String)
  | arr (xs : List Json)
  | obj (fields : List (String × Json))

/-- JSON rendering of an optional string: null when absent. -/
def jsonOfOptStr : Option String → Json
  | none => .null
  | some s => .str s

/-- JSON rendering of an optional number: null when absent. -/
def jsonOfOptNat : Option Nat → Json
  | none => .null
  | some n => .num n

/-- Serialization of RequiredDocument: its two declared fields. -/
def RequiredDocument.toJson (d : RequiredDocument) : Json :=
  .obj [("type", .str d.type), ("required", .bool d.required)]

/-- Serialization of ExtractedFields: its eleven declared fields, in
declaration order, absent values as null. -/
def ExtractedFields.toJson (f : ExtractedFields) : Json :=
  .obj [("name", jsonOfOptStr f.name),
        ("dob", jsonOfOptStr f.dob),
        ("document_number_masked", jsonOfOptStr f.document_number_masked),
        ("address", jsonOfOptStr f.address),
        ("father_name", jsonOfOptStr f.father_name),
        ("nationality", jsonOfOptStr f.nationality),
        ("expiry_date", jsonOfOptStr f.expiry_date),
        ("employer_name", jsonOfOptStr f.employer_name),
        ("salary", match f.salary with | none => .null | some n => .num n),
        ("financial_year", jsonOfOptStr f.financial_year),
        ("bill_date", jsonOfOptStr f.bill_date)]

/-- Serialization of DocumentUpload: its eight declared fields. -/
def DocumentUpload.toJson (u : DocumentUpload) : Json :=
  .obj [("upload_id", .str u.upload_id),
        ("filename", .str u.filename),
        ("detected_type", .str u.detected_type),
        ("extracted_fields", u.extracted_fields.toJson),
        ("ocr_text_snippet", .str u.ocr_text_snippet),
        ("confidence", .num u.confidence),
        ("tamper_flag", .bool u.tamper_flag),
        ("notes", .arr (u.notes.map Json.str))]

/-- Serialization of CrossChecks: enum statuses as their string values. -/
def CrossChecks.toJson (c : CrossChecks) : Json :=
  .obj [("name_consistency", .str c.name_consistency.val),
        ("dob_consistency", .str c.dob_consistency.val),
        ("face_match_score", jsonOfOptNat c.face_match_score)]

/-- Serialization of Audit: its three declared fields. -/
def Audit.toJson (a : Audit) : Json :=
  .obj [("agent_version", .str a.agent_version),
        ("logs", .arr (a.logs.map Json.str)),
        ("consent_received", .bool a.consent_received)]

/-- Serialization of VerificationResult: the twelve declared fields in
pydantic declaration order; decision carries its enum string value
(Config use_enum_values = True). -/
def VerificationResult.toJson (r : VerificationResult) : Json :=
  .obj [("request_id", .str r.request_id),
        ("timestamp", .str r.timestamp),
        ("purpose", .str r.purpose),
        ("required_documents", .arr (r.required_documents.map RequiredDocument.toJson)),
        ("uploads", .arr (r.uploads.map DocumentUpload.toJson)),
        ("cross_checks", r.cross_checks.toJson),
        ("decision", .str r.decision.val),
        ("decision_reasons", .arr (r.decision_reasons.map Json.str)),
        ("next_actions", .arr (r.next_actions.map Json.str)),
        ("audit", r.audit.toJson),
        ("escalate_to_human", .bool r.escalate_to_human),
        ("human_escalation_reason", jsonOfOptStr r.human_escalation_reason)]

/-- The keys of a top-level JSON object, in order. -/
def Json.topKeys : Json → List String
  | .obj fields => fields.map Prod.fst
  | _ => []

/-- Field access on a JSON object. -/
def Json.field (j : Json) (k : String) : Option Json :=
  match j with
  | .obj fields => fields.lookup k
  | _ => none

/-- Minimal JSON string escaping for rendering. -/
def jsonEscapeChar (c : Char) : String :=
  if c = '\\' then "\\\\"
  else if c = '"' then "\\\""
  else if c = '\n' then "\\n"
  else String.singleton c

/-- Escape a string for JSON rendering. -/
def jsonEscape (s : String) : String :=
  String.join (s.data.map jsonEscapeChar)

mutual

/-- Render a JSON value as text; an object opens with a left brace. -/
def Json.render : Json → String
  | .null => "null"
  | .bool true => "true"
  | .bool false => "false"
  | .num n => toString n
  | .str s => "\"" ++ jsonEscape s ++ "\""
  | .arr xs => "[" ++ Json.renderList xs ++ "]"
  | .obj fields => "\x7b" ++ Json.renderFields fields ++ "\x7d"

/-- Render the elements of a JSON array, comma separated. -/
def Json.renderList : List Json → String
  | [] => ""
  | [x] => x.render
  | x :: xs => x.render ++ "," ++ Json.renderList xs

/-- Render the fields of a JSON object, comma separated. -/
def Json.renderFields : List (String × Json) → String
  | [] => ""
  | [kv] => "\"" ++ jsonEscape kv.1 ++ "\":" ++ kv.2.render
  | kv :: fs => "\"" ++ jsonEscape kv.1 ++ "\":" ++ kv.2.render ++ "," ++ Json.renderFields fs

end

/-- A string is the serialization of a VerificationResult when some
result renders to it. -/
def isSerializedVerificationResult (s : String) : Prop :=
  ∃ r : VerificationResult, Json.render (VerificationResult.toJson r) = s

/-- The names bound at module level in verification_agent.py: its two
from-imports, its imported tool, and its two defs. There is no
DocumentVerificationAgent. -/
def verification_agent_module_names : List String :=
  ["Agent", "OpenAIChat", "analyze_document_image",
   "get_verification_prompt", "create_agent"]

/-- Python from-import semantics: binding succeeds exactly when the
module defines the requested name, otherwise an ImportError is raised. -/
def from_import (module_names : List String) (name : String) :
    Except String String :=
  if name ∈ module_names then .ok name
  else .error ("ImportError: cannot import name " ++ name)

/-- Running example_usage.py: module initialization first executes
from verification_agent import DocumentVerificationAgent, and only if
that succeeds can main run (main itself instantiates the same missing
class, so the body after a successful import is irrelevant here). -/
def example_usage_run : Except String Unit := do
  let _ ← from_import verification_agent_module_names "DocumentVerificationAgent"
  pure ()

/-- Association-list lookup misses every key not in the key list. -/
theorem lookup_eq_none_of_not_mem_keys {β : Type} (l : List (String × β))
    (s : String) (h : s ∉ l.map Prod.fst) : l.lookup s = none := by
  induction l with
  | nil => rfl
  | cons kv tl ih =>
    obtain ⟨k, v⟩ := kv
    simp only [List.map, List.mem_cons, not_or] at h
    obtain ⟨h1, h2⟩ := h
    have hk : (s == k) = false := beq_eq_false_iff_ne.mpr h1
    simp [List.lookup, hk, ih h2]

/-- The rendering of a JSON object starts with a left brace. -/
theorem render_obj_head (fields : List (String × Json)) :
    (Json.render (.obj fields)).data.head? = some '\x7b' := by
  show ("\x7b" ++ Json.renderFields fields ++ "\x7d").data.head? = some '\x7b'
  rw [String.data_append, String.data_append]
  rfl

/-- C1 counterexample: in the requirement list for account_opening_savings,
Utility and BankStatement appear as two separate single-type entries and
both carry required = false, so the address proof is not represented as a
single slot with mandatory = true. -/
theorem address_proof_not_single_mandatory_slot :
    ((get_required_documents "account_opening_savings").filter
      (fun d => d.type == "Utility" || d.type == "BankStatement")) =
      [{ type := "Utility", required := false },
       { type := "BankStatement", required := false }] := by
  decide

/-- C1 (amended): for account_opening_savings the requirement list has
five single-type entries; PAN, Aadhaar and Photograph are mandatory while
Utility and BankStatement are two separate entries with required = false,
so a check over the required flags does not force the presence of an
address proof. -/
theorem account_opening_savings_requirements :
    get_required_documents "account_opening_savings" =
      [{ type := "PAN", required := true },
       { type := "Aadhaar", required := true },
       { type := "Photograph", required := true },
       { type := "Utility", required := false },
       { type := "BankStatement", required := false }] ∧
    ((get_required_documents "account_opening_savings").filter
        (fun d => !d.required)).map (fun d => d.type) =
      ["Utility", "BankStatement"] := by
  exact ⟨by decide, by decide⟩

/-- C2: for every purpose string outside the six known keys,
get_required_documents returns exactly the mandatory PAN slot followed by
the mandatory Aadhaar slot; being a total function, it never raises. -/
theorem unknown_purpose_fallback (p : String) (h : p ∉ KNOWN_PURPOSES) :
    get_required_documents p =
      [{ type := "PAN", required := true },
       { type := "Aadhaar", required := true }] := by
  have hnone : DOCUMENT_REQUIREMENTS.lookup p = none :=
    lookup_eq_none_of_not_mem_keys DOCUMENT_REQUIREMENTS p h
  simp [get_required_documents, hnone]

/-- C2 witness: the unknown purpose string foo takes the fallback. -/
theorem unknown_purpose_fallback_witness :
    "foo" ∉ KNOWN_PURPOSES ∧
      get_required_documents "foo" =
        [{ type := "PAN", required := true },
         { type := "Aadhaar", required := true }] :=
  ⟨by decide, unknown_purpose_fallback "foo" (by decide)⟩

/-- C4 counterexample: when the classification call fails, the tool
returns a fixed error string that does not even contain the words
classification failed, and no DocumentRecord is produced. -/
theorem classification_failure_returns_error_string :
    analyze_document_image (.error "connection refused") (fun _ _ => .ok "ok")
        "doc.jpg" none none =
      "Error analyzing document: connection refused. Please ensure the file path is correct and the image is accessible." ∧
    hasSublist "classification failed".data
        "Error analyzing document: connection refused. Please ensure the file path is correct and the image is accessible.".data =
      false := by
  exact ⟨rfl, by decide⟩

/-- C4 (amended): a failure of the image read or of the vision call is
recovered locally: analyze_document_image returns the string
Error analyzing document followed by the cause and a fixed hint, and
never propagates the failure; the rest of the request is unaffected
because the tool is called once per upload. -/
theorem classification_failure_recovered (e file_path : String)
    (filename question : Option String)
    (api_call : String → String → Except String String) :
    analyze_document_image (.error e) api_call file_path filename question =
      "Error analyzing document: " ++ e ++
        ". Please ensure the file path is correct and the image is accessible." ∧
    ∀ b : String,
      analyze_document_image (.ok b) (fun _ _ => .error e) file_path
          filename question =
        "Error analyzing document: " ++ e ++
          ". Please ensure the file path is correct and the image is accessible." := by
  exact ⟨rfl, fun b => rfl⟩

/-- The serialization of a VerificationResult always opens with a left
brace, since its JSON form is an object. -/
theorem render_toJson_head (r : VerificationResult) :
    (Json.render (VerificationResult.toJson r)).data.head? = some '\x7b' :=
  render_obj_head _

/-- C5 counterexample: on an agent failure the submit handler hands the
caller a chat message whose content is the fixed apology string, which is
not the serialization of any VerificationResult. -/
theorem submit_handler_no_verification_result :
    submit_handler true [] "verify" [] false (fun _ => .error "boom") =
      [{ role := "user", content := "verify" },
       { role := "assistant", content := "Sorry, I encountered an error: boom" }] ∧
    ¬ isSerializedVerificationResult "Sorry, I encountered an error: boom" := by
  constructor
  · decide
  · rintro ⟨r, hr⟩
    have h1 := render_toJson_head r
    rw [hr] at h1
    exact absurd h1 (by decide)

/-- C5 (amended): the submit handler never propagates an exception: when
the agent run fails with any cause, the handler still returns a complete
message list, ending with an assistant message that encodes the failure
as the string Sorry, I encountered an error followed by the cause; no
VerificationResult is constructed anywhere in the handler. -/
theorem submit_handler_failure_yields_message (messages : List ChatMessage)
    (prompt : String) (files : List (String × String × Bool)) (ack : Bool)
    (e : String) (h : pyStrip prompt ≠ "") :
    submit_handler true messages prompt files ack (fun _ => .error e) =
      messages ++
        [{ role := "user", content := prompt },
         { role := "assistant",
           content := "Sorry, I encountered an error: " ++ e }] := by
  have hc : (true && (pyStrip prompt != "")) = true := by
    simp [bne_iff_ne, h]
  unfold submit_handler
  rw [if_pos hc]
  show (messages ++ [{ role := "user", content := prompt }]) ++
      [{ role := "assistant",
         content := "Sorry, I encountered an error: " ++ e }] = _
  simp

/-- C5 witness: a concrete failing run still yields the two messages. -/
theorem submit_handler_failure_yields_message_witness :
    pyStrip "verify my PAN" ≠ "" ∧
      submit_handler true [] "verify my PAN" [] false
          (fun _ => .error "network down") =
        [] ++
          [{ role := "user", content := "verify my PAN" },
           { role := "assistant",
             content := "Sorry, I encountered an error: " ++ "network down" }] :=
  ⟨by decide,
   submit_handler_failure_yields_message [] "verify my PAN" [] false
     "network down" (by decide)⟩

/-- C6: for every known purpose the requirement list is non-empty and no
document type occurs in two different mandatory entries. -/
theorem known_purposes_requirements_wellformed (p : String)
    (hp : p ∈ KNOWN_PURPOSES) :
    get_required_documents p ≠ [] ∧
      (((get_required_documents p).filter (fun d => d.required)).map
        (fun d => d.type)).Nodup := by
  have hp6 : p = "account_opening_savings" ∨ p = "account_opening_salary" ∨
      p = "address_update" ∨ p = "loan_application" ∨
      p = "credit_card_kyc" ∨ p = "business_account" := by
    simpa [KNOWN_PURPOSES, DOCUMENT_REQUIREMENTS] using hp
  rcases hp6 with rfl | rfl | rfl | rfl | rfl | rfl <;>
    exact ⟨by decide, by decide⟩

/-- C6 witness: the loan_application purpose. -/
theorem known_purposes_requirements_wellformed_witness :
    "loan_application" ∈ KNOWN_PURPOSES ∧
      (get_required_documents "loan_application" ≠ [] ∧
        (((get_required_documents "loan_application").filter
            (fun d => d.required)).map (fun d => d.type)).Nodup) :=
  ⟨by decide, known_purposes_requirements_wellformed "loan_application" (by decide)⟩

/-- C7: get_purpose_display_name is total; each known purpose maps to its
fixed phrase, and every unknown purpose maps to the underscore-to-space,
title-cased derivation. -/
theorem purpose_display_name_spec :
    get_purpose_display_name "account_opening_savings" = "Open Savings Account" ∧
    get_purpose_display_name "account_opening_salary" = "Open Salary Account" ∧
    get_purpose_display_name "address_update" = "Update Address" ∧
    get_purpose_display_name "loan_application" = "Loan Application" ∧
    get_purpose_display_name "credit_card_kyc" = "Credit Card KYC" ∧
    get_purpose_display_name "business_account" = "Open Business Account" ∧
    ∀ s : String, s ∉ KNOWN_PURPOSES →
      get_purpose_display_name s = pyTitle (pyReplaceChar s '_' ' ') := by
  refine ⟨rfl, rfl, rfl, rfl, rfl, rfl, ?_⟩
  intro s hs
  have hkeys : PURPOSE_DISPLAY_MAPPING.map Prod.fst = KNOWN_PURPOSES := by decide
  have hnone : PURPOSE_DISPLAY_MAPPING.lookup s = none :=
    lookup_eq_none_of_not_mem_keys PURPOSE_DISPLAY_MAPPING s
      (by rw [hkeys]; exact hs)
  simp [get_purpose_display_name, hnone]

/-- C7 witness: a concrete unknown purpose takes the derived label. -/
theorem purpose_display_name_spec_witness :
    "savings_account_opening" ∉ KNOWN_PURPOSES ∧
      get_purpose_display_name "savings_account_opening" =
        pyTitle (pyReplaceChar "savings_account_opening" '_' ' ') :=
  ⟨by decide,
   purpose_display_name_spec.2.2.2.2.2.2 "savings_account_opening" (by decide)⟩

/-- C8: every VerificationResult serializes to a JSON object whose keys
are exactly the twelve declared field names, in declaration order, with
the decision and both consistency statuses rendered as their enumeration
string values. -/
theorem verification_result_serialization (r : VerificationResult) :
    Json.topKeys (VerificationResult.toJson r) =
      ["request_id", "timestamp", "purpose", "required_documents", "uploads",
       "cross_checks", "decision", "decision_reasons", "next_actions",
       "audit", "escalate_to_human", "human_escalation_reason"] ∧
    Json.field (VerificationResult.toJson r) "decision" =
      some (.str r.decision.val) ∧
    r.decision.val ∈ ["APPROVED", "REVIEW_REQUIRED", "REJECTED"] ∧
    Json.field (VerificationResult.toJson r) "cross_checks" =
      some (CrossChecks.toJson r.cross_checks) ∧
    r.cross_checks.name_consistency.val ∈ ["MATCH", "PARTIAL", "MISMATCH"] ∧
    r.cross_checks.dob_consistency.val ∈ ["MATCH", "PARTIAL", "MISMATCH"] := by
  refine ⟨rfl, rfl, ?_, rfl, ?_, ?_⟩
  · cases h : r.decision <;> simp [Decision.val]
  · cases h : r.cross_checks.name_consistency <;> simp [ConsistencyStatus.val]
  · cases h : r.cross_checks.dob_consistency <;> simp [ConsistencyStatus.val]

/-- C9: for address_update the requirement list is exactly Aadhaar, PAN,
Utility, BankStatement, every entry optional, so nothing is mandatory. -/
theorem address_update_requirements :
    get_required_documents "address_update" =
      [{ type := "Aadhaar", required := false },
       { type := "PAN", required := false },
       { type := "Utility", required := false },
       { type := "BankStatement", required := false }] ∧
    (get_required_documents "address_update").all (fun d => !d.required) = true := by
  exact ⟨by decide, by decide⟩

/-- C10: running example_usage.py fails on every invocation: its
module-level import of DocumentVerificationAgent from verification_agent
raises an ImportError, because that module binds only Agent, OpenAIChat,
analyze_document_image, get_verification_prompt and create_agent. -/
theorem example_usage_main_import_error :
    example_usage_run =
      .error ("ImportError: cannot import name " ++ "DocumentVerificationAgent") ∧
    "DocumentVerificationAgent" ∉ verification_agent_module_names ∧
    "create_agent" ∈ verification_agent_module_names := by
  refine ⟨?_, by decide, by decide⟩
  rfl
